import Mathlib

/-!
Verification of the content-filter agent's frame-sampling and
trigger-detection decision loop, shallowly embedded from the Python
source (`agent/video_analyzer.py`, `agent/main.py`,
`agent/command_sender.py`).  Byte buffers are `List Nat`, wall-clock
times and similarity scores are `ℚ`, and fallible external calls
(the vision-model HTTP request) are `Except String` values supplied
as parameters.
-/

namespace ContentFilter

/-- Result of analyzing one video frame
    (`video_analyzer.py`, `DetectionResult` dataclass). -/
structure DetectionResult where
  trigger_detected : Bool
  trigger_name : Option String
  confidence : ℚ
  description : String
  video_ended : Bool := false
deriving DecidableEq, Repr

/-- Cross-frame state of the stillness ("video ended") detector
    (`VideoAnalyzer.__init__`: `previous_frame_data`, `static_frame_count`). -/
structure StillnessState where
  previous_frame_data : Option (List Nat)
  static_frame_count : Nat
deriving DecidableEq, Repr

/-- Embeds `VideoAnalyzer.static_threshold = 5`. -/
def static_threshold : Nat := 5

/-- Byte-sampling stride (`sample_rate = 1000` in
    `VideoAnalyzer._calculate_frame_similarity`). -/
def sample_rate : Nat := 1000

/-- The indices visited by `range(0, n, 1000)`: the multiples of the
    stride below `n`, in increasing order. -/
def sampledIndices (n : Nat) : List Nat :=
  (List.range n).filter (fun i => i % sample_rate = 0)

/-- The number of positions `range(0, n, 1000)` visits where the two
    buffers agree. -/
def matchingSamples (data1 data2 : List Nat) : Nat :=
  ((sampledIndices data1.length).filter
    (fun i => data1.getD i 0 = data2.getD i 0)).length

/-- Embeds `VideoAnalyzer._calculate_frame_similarity`: buffers of differing
    length are 0.0-similar; otherwise sample every 1000th byte, count
    equal positions, and return matches/samples (0.0 when no samples). -/
def calculate_frame_similarity (data1 data2 : List Nat) : ℚ :=
  if data1.length ≠ data2.length then 0
  else if 0 < (sampledIndices data1.length).length then
    (matchingSamples data1 data2 : ℚ) / ((sampledIndices data1.length).length : ℚ)
  else 0

/-- Embeds `VideoAnalyzer._detect_video_end`: on the first observed frame,
    seed `previous_frame_data` and return false; afterwards compare with
    the previous frame, increment the static counter on similarity
    > 0.95 and reset it to 0 otherwise, update the previous-frame slot,
    and fire (returning true and resetting the counter to 0) exactly
    when the counter reaches the threshold. -/
def detect_video_end (st : StillnessState) (frame : List Nat) :
    Bool × StillnessState :=
  match st.previous_frame_data with
  | none => (false, { st with previous_frame_data := some frame })
  | some prev =>
    let count :=
      if calculate_frame_similarity frame prev > 95 / 100 then
        st.static_frame_count + 1
      else 0
    if count ≥ static_threshold then
      (true, { previous_frame_data := some frame, static_frame_count := 0 })
    else
      (false, { previous_frame_data := some frame, static_frame_count := count })

/-- Feed a sequence of frames through the stillness detector,
    collecting the per-frame "video ended" outputs. -/
def runStillness : StillnessState → List (List Nat) → List Bool × StillnessState
  | st, [] => ([], st)
  | st, f :: fs =>
    let r := detect_video_end st f
    let rr := runStillness r.2 fs
    (r.1 :: rr.1, rr.2)

lemma sampledIndices_length_pos {n : Nat} (h : 0 < n) :
    0 < (sampledIndices n).length :=
  List.length_pos_of_mem
    (List.mem_filter.mpr ⟨List.mem_range.mpr h, by simp [sample_rate]⟩)

lemma matchingSamples_le (d1 d2 : List Nat) :
    matchingSamples d1 d2 ≤ (sampledIndices d1.length).length :=
  List.length_filter_le _ _

lemma sim_singleton : calculate_frame_similarity [0] [0] = 1 := by
  norm_num [calculate_frame_similarity, matchingSamples, sampledIndices,
    sample_rate, List.range_succ]

lemma gt_95_100_of_one : (1 : ℚ) > 95 / 100 := by norm_num

/-- C6: similarity of buffers of differing lengths is exactly 0.0 (the
    function is total, so it never raises); for equal-length nonempty
    buffers it is the number of stride-1000 sampled positions where the
    bytes match, divided by the number of sampled positions; the value
    always lies in [0, 1]. -/
theorem frame_similarity_spec (d1 d2 : List Nat) :
    (d1.length ≠ d2.length → calculate_frame_similarity d1 d2 = 0) ∧
    (d1.length = d2.length → 0 < d1.length →
      calculate_frame_similarity d1 d2 =
        (matchingSamples d1 d2 : ℚ) / ((sampledIndices d1.length).length : ℚ)) ∧
    0 ≤ calculate_frame_similarity d1 d2 ∧
    calculate_frame_similarity d1 d2 ≤ 1 := by
  refine ⟨fun h => by simp [calculate_frame_similarity, h], ?_, ?_⟩
  · intro h hpos
    have hs := sampledIndices_length_pos hpos
    unfold calculate_frame_similarity
    rw [if_neg (not_ne_iff.mpr h), if_pos hs]
  · rcases eq_or_ne d1.length d2.length with h | h
    · unfold calculate_frame_similarity
      rw [if_neg (not_ne_iff.mpr h)]
      by_cases hs : 0 < (sampledIndices d1.length).length
      · have hle : (matchingSamples d1 d2 : ℚ) ≤
            ((sampledIndices d1.length).length : ℚ) := by
          exact_mod_cast matchingSamples_le d1 d2
        have hspos : (0 : ℚ) < ((sampledIndices d1.length).length : ℚ) := by
          exact_mod_cast hs
        rw [if_pos hs]
        exact ⟨by positivity, (div_le_one hspos).mpr hle⟩
      · rw [if_neg hs]
        norm_num
    · unfold calculate_frame_similarity
      rw [if_pos h]
      norm_num

/-- Witness for C6 at concrete inputs: `[0]` vs `[]` have differing
    lengths and similarity 0; `[0, 1]` vs `[0, 2]` have equal positive
    length, giving the matches-over-samples quotient. -/
theorem frame_similarity_spec_witness :
    ([0] : List Nat).length ≠ ([] : List Nat).length ∧
    calculate_frame_similarity [0] [] = 0 ∧
    0 < ([0, 1] : List Nat).length ∧
    calculate_frame_similarity [0, 1] [0, 2] =
      (matchingSamples [0, 1] [0, 2] : ℚ) /
        ((sampledIndices ([0, 1] : List Nat).length).length : ℚ) :=
  ⟨by decide, (frame_similarity_spec [0] []).1 (by decide), by decide,
   (frame_similarity_spec [0, 1] [0, 2]).2.1 rfl (by decide)⟩

/-- C2: stillness edge-trigger.  The first observed frame returns false
    and seeds the previous-frame slot; a comparison with similarity
    > 0.95 increments the counter (returning false while below the
    threshold 5) and one with similarity ≤ 0.95 resets it to 0; reaching
    the threshold returns true and resets the counter to 0; and from a
    fresh state, seven identical frames (one seed plus six comparisons)
    fire exactly once, on the fifth comparison, with the sixth
    comparison restarting the counter at 1. -/
theorem stillness_edge_trigger (c : Nat) (p f : List Nat) :
    (∀ st : StillnessState, st.previous_frame_data = none →
      detect_video_end st f = (false, ⟨some f, st.static_frame_count⟩)) ∧
    (calculate_frame_similarity f p > 95 / 100 → c + 1 < static_threshold →
      detect_video_end ⟨some p, c⟩ f = (false, ⟨some f, c + 1⟩)) ∧
    (calculate_frame_similarity f p > 95 / 100 → c + 1 ≥ static_threshold →
      detect_video_end ⟨some p, c⟩ f = (true, ⟨some f, 0⟩)) ∧
    (¬ calculate_frame_similarity f p > 95 / 100 →
      detect_video_end ⟨some p, c⟩ f = (false, ⟨some f, 0⟩)) ∧
    runStillness ⟨none, 0⟩ [[0], [0], [0], [0], [0], [0], [0]] =
      ([false, false, false, false, false, true, false], ⟨some [0], 1⟩) := by
  refine ⟨?_, ?_, ?_, ?_, ?_⟩
  · rintro ⟨prev, cnt⟩ h
    subst h
    rfl
  · intro hsim hlt
    simp [detect_video_end, hsim, Nat.not_le.mpr hlt, Nat.lt_iff_add_one_le]
  · intro hsim hge
    simp [detect_video_end, hsim, hge]
  · intro hsim
    simp [detect_video_end, hsim, static_threshold]
  · norm_num [runStillness, detect_video_end, sim_singleton, static_threshold]

/-- Witness for C2: with an exactly-repeated singleton frame the
    similarity 1 exceeds 0.95, so a counter of 0 advances to 1 without
    firing and a counter of 4 reaches the threshold, fires, and resets
    to 0. -/
theorem stillness_edge_trigger_witness :
    calculate_frame_similarity [0] [0] > 95 / 100 ∧
    detect_video_end ⟨some [0], 0⟩ [0] = (false, ⟨some [0], 1⟩) ∧
    detect_video_end ⟨some [0], 4⟩ [0] = (true, ⟨some [0], 0⟩) := by
  have hs : calculate_frame_similarity [0] [0] > 95 / 100 := by
    rw [sim_singleton]; exact gt_95_100_of_one
  exact ⟨hs, (stillness_edge_trigger 0 [0] [0]).2.1 hs (by decide),
    (stillness_edge_trigger 4 [0] [0]).2.2.1 hs (by decide)⟩

/-- Mutable per-track session state of `ContentFilterAgent`
    (`main.py`): active triggers, tracked URL, the video watch timer,
    the last navigation time, and the configured watch budget. -/
structure AgentState where
  triggers : List String
  current_url : Option String
  video_start_time : ℚ
  last_scroll_time : ℚ
  max_video_watch_duration : ℚ
deriving DecidableEq, Repr

/-- The per-cycle outcome of the frame-handling loop in
    `ContentFilterAgent.process_video_track`: do nothing, send the
    two-step "Not interested" click sequence (trigger path), or send
    the next-video navigation click. -/
inductive Decision where
  | noop
  | clickNotInterested
  | navigateNext
deriving DecidableEq, Repr

/-- Embeds `min_interval = 0.5` in `process_video_track`'s navigation
    rate-limiting check. -/
def min_interval : ℚ := 1 / 2

/-- The per-frame decision logic of
    `ContentFilterAgent.process_video_track` (lines 216–331), with all
    `time.time()` calls of one cycle abstracted to a single `now`.
    If a trigger was detected, the "Not interested" click sequence is
    sent and both timers reset; otherwise, if the stillness detector
    fired or the elapsed watch time reached the budget, navigation is
    sent unless the last navigation was less than `min_interval` ago,
    and an emitted navigation resets both timers. -/
def decideStep (s : AgentState) (d : DetectionResult) (now : ℚ) :
    Decision × AgentState :=
  if d.trigger_detected then
    (Decision.clickNotInterested,
      { s with video_start_time := now, last_scroll_time := now })
  else if d.video_ended = true ∨
      now - s.video_start_time ≥ s.max_video_watch_duration then
    if now - s.last_scroll_time < min_interval then
      (Decision.noop, s)
    else
      (Decision.navigateNext,
        { s with last_scroll_time := now, video_start_time := now })
  else (Decision.noop, s)

/-- A cycle is navigation-eligible when no trigger was detected and
    either the stillness detector fired or the watch budget elapsed. -/
def navEligible (s : AgentState) (d : DetectionResult) (now : ℚ) : Prop :=
  d.trigger_detected = false ∧
    (d.video_ended = true ∨
      now - s.video_start_time ≥ s.max_video_watch_duration)

lemma decideStep_nav_iff (s : AgentState) (d : DetectionResult) (now : ℚ) :
    (decideStep s d now).1 = Decision.navigateNext ↔
      (d.trigger_detected = false ∧
        (d.video_ended = true ∨
          now - s.video_start_time ≥ s.max_video_watch_duration) ∧
        ¬ now - s.last_scroll_time < min_interval) := by
  unfold decideStep
  split_ifs with h1 h2 h3 <;> simp_all

lemma decideStep_nav_state (s : AgentState) (d : DetectionResult) (now : ℚ)
    (h : (decideStep s d now).1 = Decision.navigateNext) :
    (decideStep s d now).2 =
      { s with last_scroll_time := now, video_start_time := now } := by
  unfold decideStep at h ⊢
  split_ifs at h ⊢
  simp_all

/-- C1: mutual exclusivity of click and navigate — whenever the
    detection result reports a trigger, the cycle never emits the
    next-video navigation, irrespective of the `video_ended` flag and
    of the elapsed watch time. -/
theorem click_navigate_mutual_exclusion (s : AgentState)
    (d : DetectionResult) (now : ℚ) (h : d.trigger_detected = true) :
    (decideStep s d now).1 ≠ Decision.navigateNext := by
  simp [decideStep, h]

/-- Witness for C1 at a cycle where the trigger fires while the video
    also ended and the watch budget is exceeded. -/
theorem click_navigate_mutual_exclusion_witness :
    (⟨true, some "x", 1, "d", true⟩ : DetectionResult).trigger_detected
        = true ∧
    (decideStep ⟨[], none, 0, 0, 10⟩ ⟨true, some "x", 1, "d", true⟩
        100).1 ≠ Decision.navigateNext :=
  ⟨rfl, click_navigate_mutual_exclusion ⟨[], none, 0, 0, 10⟩
    ⟨true, some "x", 1, "d", true⟩ 100 rfl⟩

/-- C3: navigation rate limiting — two cycles less than `min_interval`
    apart emit at most one navigation; two navigation-eligible cycles
    at least `min_interval` apart (the first itself clear of the rate
    limiter) emit one navigation each; and every emitted navigation
    sets both `last_scroll_time` and `video_start_time` to the cycle's
    current time. -/
theorem navigation_rate_limiting (s : AgentState)
    (d1 d2 : DetectionResult) (t1 t2 : ℚ) :
    (t2 - t1 < min_interval →
      ¬((decideStep s d1 t1).1 = Decision.navigateNext ∧
        (decideStep (decideStep s d1 t1).2 d2 t2).1 =
          Decision.navigateNext)) ∧
    (min_interval ≤ t2 - t1 → navEligible s d1 t1 →
      min_interval ≤ t1 - s.last_scroll_time →
      navEligible (decideStep s d1 t1).2 d2 t2 →
      (decideStep s d1 t1).1 = Decision.navigateNext ∧
      (decideStep (decideStep s d1 t1).2 d2 t2).1 =
        Decision.navigateNext) ∧
    (∀ (s' : AgentState) (d : DetectionResult) (t : ℚ),
      (decideStep s' d t).1 = Decision.navigateNext →
      (decideStep s' d t).2.last_scroll_time = t ∧
      (decideStep s' d t).2.video_start_time = t) := by
  refine ⟨?_, ?_, ?_⟩
  · rintro hlt ⟨h1, h2⟩
    have hs1 := decideStep_nav_state s d1 t1 h1
    have h2' := (decideStep_nav_iff _ d2 t2).mp h2
    rw [hs1] at h2'
    exact h2'.2.2 (by simpa using hlt)
  · intro hge he1 hrate he2
    have h1 : (decideStep s d1 t1).1 = Decision.navigateNext :=
      (decideStep_nav_iff s d1 t1).mpr ⟨he1.1, he1.2, not_lt.mpr hrate⟩
    refine ⟨h1, (decideStep_nav_iff _ d2 t2).mpr ⟨he2.1, he2.2, ?_⟩⟩
    rw [decideStep_nav_state s d1 t1 h1]
    simpa using not_lt.mpr hge
  · intro s' d t h
    rw [decideStep_nav_state s' d t h]
    exact ⟨rfl, rfl⟩

/-- Witness for C3: from a fresh session, a video-ended cycle at t=10
    and another at t=11 (1 s > 0.5 s apart) each emit a navigation. -/
theorem navigation_rate_limiting_witness :
    (decideStep ⟨[], none, 0, 0, 10⟩ ⟨false, none, 0, "", true⟩ 10).1 =
      Decision.navigateNext ∧
    (decideStep (decideStep ⟨[], none, 0, 0, 10⟩
        ⟨false, none, 0, "", true⟩ 10).2
        ⟨false, none, 0, "", true⟩ 11).1 = Decision.navigateNext :=
  (navigation_rate_limiting ⟨[], none, 0, 0, 10⟩
      ⟨false, none, 0, "", true⟩ ⟨false, none, 0, "", true⟩ 10 11).2.1
    (by norm_num [min_interval]) (by simp [navEligible])
    (by norm_num [min_interval]) (by simp [navEligible])

/-- Counterexample to C8: the caller performs no membership check — a
    reply with `trigger_detected = true` and a `trigger_name` outside
    the supplied trigger set still causes the click-trigger action,
    rather than being treated as a non-detection. -/
theorem out_of_set_trigger_counterexample :
    (⟨true, some "dog", 9 / 10, "d", false⟩ :
        DetectionResult).trigger_name = some "dog" ∧
    "dog" ∉ (["cat"] : List String) ∧
    (decideStep ⟨["cat"], none, 0, 0, 10⟩
        ⟨true, some "dog", 9 / 10, "d", false⟩ 1).1 =
      Decision.clickNotInterested := by
  refine ⟨rfl, by simp, ?_⟩
  simp [decideStep]

/-- C8 amended: the caller acts on `trigger_detected` alone — whenever
    it is true the click-trigger action is taken, whether or not
    `trigger_name` belongs to the session's trigger set. -/
theorem out_of_set_trigger_amended (s : AgentState) (d : DetectionResult)
    (now : ℚ) (h : d.trigger_detected = true) :
    (decideStep s d now).1 = Decision.clickNotInterested := by
  simp [decideStep, h]

/-- Witness for the amended C8 at a reply whose trigger name is outside
    the supplied set. -/
theorem out_of_set_trigger_amended_witness :
    (⟨true, some "dog", 9 / 10, "d", false⟩ :
        DetectionResult).trigger_detected = true ∧
    (decideStep ⟨["cat"], none, 5, 5, 10⟩
        ⟨true, some "dog", 9 / 10, "d", false⟩ 6).1 =
      Decision.clickNotInterested :=
  ⟨rfl, out_of_set_trigger_amended ⟨["cat"], none, 5, 5, 10⟩
    ⟨true, some "dog", 9 / 10, "d", false⟩ 6 rfl⟩

/-- The two prompt modes built by
    `VideoAnalyzer._create_detection_prompt`: the fixed
    general-detection prompt, or the closed-set prompt parameterized by
    the quoted, comma-joined trigger list it interpolates. -/
inductive Prompt where
  | general
  | closedSet (triggers_str : String)
deriving DecidableEq, Repr

/-- Embeds `VideoAnalyzer._create_detection_prompt`: the general prompt
    exactly when the trigger list is empty, else the closed-set prompt
    over `", ".join(quoted triggers)`. -/
def create_detection_prompt (triggers : List String) : Prompt :=
  if triggers.isEmpty then Prompt.general
  else Prompt.closedSet
    (String.intercalate ", " (triggers.map (fun t => "\"" ++ t ++ "\"")))

/-- Inbound control messages handled by
    `ContentFilterAgent.handle_data_message`. -/
inductive DataMessage where
  | initTriggers (triggers : List String) (url : Option String)
  | updateTriggers (triggers : List String)
  | urlUpdate (url : Option String)
  | unknown (mtype : String)
deriving DecidableEq, Repr

/-- Embeds `ContentFilterAgent.handle_data_message`: INIT_TRIGGERS replaces
    the trigger list and, when a URL is present, the tracked URL;
    UPDATE_TRIGGERS replaces the trigger list only; URL_UPDATE replaces
    the tracked URL; unknown message types are ignored. -/
def handle_data_message (s : AgentState) (m : DataMessage) : AgentState :=
  match m with
  | .initTriggers ts url =>
    match url with
    | some u => { s with triggers := ts, current_url := some u }
    | none => { s with triggers := ts }
  | .updateTriggers ts => { s with triggers := ts }
  | .urlUpdate url => { s with current_url := url }
  | .unknown _ => s

/-- C9: UPDATE_TRIGGERS replaces the session's trigger list as a whole
    value and changes no other session field; the prompt builder
    returns the general prompt exactly when the trigger list is empty,
    so after UPDATE_TRIGGERS with an empty list the next
    classification's prompt is the open-set (general) one. -/
theorem update_triggers_takes_effect (s : AgentState) (ts : List String) :
    (handle_data_message s (.updateTriggers ts)).triggers = ts ∧
    (handle_data_message s (.updateTriggers ts)).current_url =
      s.current_url ∧
    (handle_data_message s (.updateTriggers ts)).video_start_time =
      s.video_start_time ∧
    (handle_data_message s (.updateTriggers ts)).last_scroll_time =
      s.last_scroll_time ∧
    (handle_data_message s (.updateTriggers ts)).max_video_watch_duration =
      s.max_video_watch_duration ∧
    (create_detection_prompt ts = Prompt.general ↔ ts = []) ∧
    create_detection_prompt
      (handle_data_message s (.updateTriggers [])).triggers =
        Prompt.general := by
  refine ⟨rfl, rfl, rfl, rfl, rfl, ?_, rfl⟩
  cases ts <;> simp [create_detection_prompt]

/-- Embeds `VideoAnalyzer.analyze_frame`, with the two fallible external steps
    (frame-to-base64 conversion and the vision-model call) passed in as
    `Except` values: run the stillness detector, build the prompt from
    the current triggers, call the model, and stamp the stillness flag
    onto a successful result; any failure is caught and converted into
    a non-detection whose description carries the error text, so the
    function is total and never propagates a fault. -/
def analyze_frame (st : StillnessState) (frame : List Nat)
    (triggers : List String) (frameToBase64 : Except String String)
    (openaiCall : String → Prompt → Except String DetectionResult) :
    DetectionResult × StillnessState :=
  match frameToBase64 with
  | .error e =>
    (⟨false, none, 0, "Error: " ++ e, false⟩, st)
  | .ok image_data =>
    match detect_video_end st frame with
    | (video_ended, st') =>
      match openaiCall image_data (create_detection_prompt triggers) with
      | .error e => (⟨false, none, 0, "Error: " ++ e, false⟩, st')
      | .ok r => ({ r with video_ended := video_ended }, st')

/-- C5: classifier failure degrades to non-detection — frame analysis
    is total (never raises to its caller), and both failure boundaries
    (frame conversion and the vision-model call) yield a result with
    `trigger_detected = false`, `confidence = 0`, the error text in the
    description, and `video_ended = false`. -/
theorem classifier_failure_degrades (st : StillnessState)
    (frame : List Nat) (triggers : List String) (e img : String)
    (g : String → Prompt → Except String DetectionResult) :
    (analyze_frame st frame triggers (.error e) g).1 =
      ⟨false, none, 0, "Error: " ++ e, false⟩ ∧
    (g img (create_detection_prompt triggers) = .error e →
      (analyze_frame st frame triggers (.ok img) g).1 =
        ⟨false, none, 0, "Error: " ++ e, false⟩) := by
  refine ⟨rfl, fun h => ?_⟩
  simp [analyze_frame, h]

/-- Witness for C5 with a vision-model call that fails concretely. -/
theorem classifier_failure_degrades_witness :
    (analyze_frame ⟨none, 0⟩ [0] [] (.ok "img")
        (fun _ _ => Except.error "boom")).1 =
      ⟨false, none, 0, "Error: " ++ "boom", false⟩ :=
  (classifier_failure_degrades ⟨none, 0⟩ [0] [] "boom" "img"
      (fun _ _ => Except.error "boom")).2 rfl

/-- State of `CommandSender` (`command_sender.py`): the running command
    counter, initialized to 0 in `__init__`. -/
structure CommandSender where
  command_count : Nat
deriving DecidableEq, Repr

/-- A freshly constructed `CommandSender` (`command_count = 0`). -/
def CommandSender.init : CommandSender := ⟨0⟩

/-- Embeds `CommandSender._get_command_id`: increment the counter and return
    its new value. -/
def get_command_id (s : CommandSender) : Nat × CommandSender :=
  (s.command_count + 1, ⟨s.command_count + 1⟩)

/-- Embeds `CommandSender.reset_counter`: set the counter back to 0. -/
def reset_counter (_ : CommandSender) : CommandSender := ⟨0⟩

/-- Dispatch `n` commands in sequence, collecting the command ids each
    one carries. -/
def dispatchIds : CommandSender → Nat → List Nat × CommandSender
  | s, 0 => ([], s)
  | s, n + 1 =>
    let r := get_command_id s
    let rr := dispatchIds r.2 n
    (r.1 :: rr.1, rr.2)

lemma dispatchIds_eq (c n : Nat) :
    (dispatchIds ⟨c⟩ n).1 = List.range' (c + 1) n := by
  induction n generalizing c with
  | zero => rfl
  | succ n ih =>
    show (c + 1) :: (dispatchIds ⟨c + 1⟩ n).1 = List.range' (c + 1) (n + 1)
    rw [ih (c + 1)]
    rfl

/-- C4: monotonic command identifiers — from a fresh sender, `n`
    dispatches carry the ids `1, 2, …, n` in order (no gaps, no
    repeats, first id 1); each id draw advances the counter by exactly
    one; and only the explicit reset operation returns it to 0. -/
theorem monotonic_command_ids (s : CommandSender) (n : Nat) :
    (dispatchIds CommandSender.init n).1 = List.range' 1 n ∧
    (get_command_id s).1 = s.command_count + 1 ∧
    (get_command_id s).2.command_count = s.command_count + 1 ∧
    (reset_counter s).command_count = 0 :=
  ⟨dispatchIds_eq 0 n, rfl, rfl, rfl⟩

/-- Embeds `CommandSender._send_data`: if the room reports disconnected the
    send is skipped (returns without publishing); if the publish call
    fails the error is caught and nothing is delivered; otherwise the
    payload (carrying the given command id) is accepted. -/
def send_data (connected publishOk : Bool) (cid : Nat) : Option Nat :=
  if !connected then none
  else if publishOk then some cid else none

/-- Embeds `CommandSender.send_click_command`: draw the next command id and
    embed it in the payload, then hand the payload to `_send_data`.
    The id draw happens before any connectivity check. -/
def send_click_command (s : CommandSender) (connected publishOk : Bool) :
    CommandSender × Option Nat :=
  ((get_command_id s).2,
    send_data connected publishOk (get_command_id s).1)

/-- Run a sequence of click-command sends, each under the given
    (connected, publishOk) transport conditions, collecting the ids
    actually accepted by the transport. -/
def runSends : CommandSender → List (Bool × Bool) →
    List (Option Nat) × CommandSender
  | s, [] => ([], s)
  | s, (c, p) :: rest =>
    let r := send_click_command s c p
    let rr := runSends r.1 rest
    (r.2 :: rr.1, rr.2)

lemma runSends_count (flags : List (Bool × Bool)) :
    ∀ s : CommandSender,
      (runSends s flags).2.command_count =
        s.command_count + flags.length := by
  induction flags with
  | nil => intro s; rfl
  | cons f rest ih =>
    intro s
    rcases f with ⟨c, p⟩
    simp only [runSends, send_click_command, get_command_id,
      List.length_cons, ih]
    omega

/-- C10: a command id is consumed even when delivery is skipped —
    every send advances the counter by one regardless of the transport
    state; a disconnected transport or a failed publish delivers
    nothing while the id is still consumed; a run of sends therefore
    advances the counter by its length, and the delivered ids can show
    gaps (here 1 and 3 accepted, 2 skipped) while assigned ids have
    none. -/
theorem command_id_consumed_on_skip (s : CommandSender) (c p : Bool)
    (flags : List (Bool × Bool)) :
    (send_click_command s c p).1.command_count = s.command_count + 1 ∧
    (c = false → (send_click_command s c p).2 = none) ∧
    (p = false → (send_click_command s c p).2 = none) ∧
    (c = true → p = true →
      (send_click_command s c p).2 = some (s.command_count + 1)) ∧
    (runSends s flags).2.command_count =
      s.command_count + flags.length ∧
    (runSends CommandSender.init
        [(true, true), (false, true), (true, true)]).1 =
      [some 1, none, some 3] := by
  refine ⟨rfl, ?_, ?_, ?_, runSends_count flags s, rfl⟩
  · intro h; subst h; rfl
  · intro h; subst h; cases c <;> rfl
  · intro hc hp; subst hc; subst hp; rfl

/-- Witness for C10: a disconnected send from a fresh sender delivers
    nothing yet advances the counter to 1, and the next connected send
    then carries id 2. -/
theorem command_id_consumed_on_skip_witness :
    (send_click_command CommandSender.init false true).2 = none ∧
    (send_click_command CommandSender.init false true).1.command_count
      = 1 ∧
    (send_click_command
        (send_click_command CommandSender.init false true).1
        true true).2 = some 2 :=
  ⟨(command_id_consumed_on_skip CommandSender.init false true []).2.1
      rfl,
   (command_id_consumed_on_skip CommandSender.init false true []).1,
   (command_id_consumed_on_skip
      (send_click_command CommandSender.init false true).1 true true
      []).2.2.2.1 rfl rfl⟩

/-- The dynamic sampling rate of `process_video_track` (lines
    182–187): 4 frames per second once the elapsed watch time exceeds
    7 seconds, 2 frames per second before that.  The 7-second cutoff is
    a literal in the code, independent of the configured watch
    duration. -/
def fps_limit (time_elapsed : ℚ) : ℚ :=
  if time_elapsed > 7 then 4 else 2

/-- The sampling-rate policy as the claim states it, written from the
    spec's words for comparison with `fps_limit`: 2 fps while elapsed
    time is at most `T − 3` for the configured watch budget `T`, 4 fps
    thereafter. -/
def claimed_fps_policy (T time_elapsed : ℚ) : ℚ :=
  if time_elapsed ≤ T - 3 then 2 else 4

/-- The throttling loop of `process_video_track` (lines 182–195):
    a frame arriving at `t` is skipped when less than `1/fps` has
    passed since the last processed frame (with fps evaluated at `t`'s
    elapsed watch time), and otherwise processed, becoming the new
    last-processed time.  Returns the processed (non-dropped)
    timestamps. -/
def processedTimes (vs : ℚ) : ℚ → List ℚ → List ℚ
  | _, [] => []
  | last, t :: ts =>
    if t - last < 1 / fps_limit (t - vs) then processedTimes vs last ts
    else t :: processedTimes vs t ts

lemma processedTimes_head (vs : ℚ) :
    ∀ (ts : List ℚ) (last b : ℚ),
      (processedTimes vs last ts).head? = some b →
      1 / fps_limit (b - vs) ≤ b - last := by
  intro ts
  induction ts with
  | nil => intro last b h; simp [processedTimes] at h
  | cons t ts ih =>
    intro last b h
    by_cases hd : t - last < 1 / fps_limit (t - vs)
    · rw [processedTimes, if_pos hd] at h
      exact ih last b h
    · rw [processedTimes, if_neg hd] at h
      obtain rfl : t = b := by simpa using h
      exact le_of_not_lt hd

lemma processedTimes_chain (vs last : ℚ) (ts : List ℚ) :
    List.Chain' (fun a b => 1 / fps_limit (b - vs) ≤ b - a)
      (processedTimes vs last ts) := by
  induction ts generalizing last with
  | nil => simp [processedTimes]
  | cons t ts ih =>
    by_cases hd : t - last < 1 / fps_limit (t - vs)
    · rw [processedTimes, if_pos hd]
      exact ih last
    · rw [processedTimes, if_neg hd]
      rw [List.chain'_cons']
      exact ⟨fun b hb => processedTimes_head vs ts t b hb, ih t⟩

lemma processedTimes_sublist (vs last : ℚ) (ts : List ℚ) :
    (processedTimes vs last ts).Sublist ts := by
  induction ts generalizing last with
  | nil => simp [processedTimes]
  | cons t ts ih =>
    by_cases hd : t - last < 1 / fps_limit (t - vs)
    · rw [processedTimes, if_pos hd]
      exact (ih last).cons t
    · rw [processedTimes, if_neg hd]
      exact (ih t).cons₂ t

/-- Counterexample to C7: the code's fps cutoff is the literal 7
    seconds, not `T − 3` for the configured watch budget `T`.  With
    `T = 20` and elapsed time 8 s the claim's policy gives 2 fps, but
    the code gives 4 fps — so frames at t = 8 and t = 8.3 (from
    `video_start_time = 0`, gap 0.3 s < 0.5 s = 1/2 fps) are both
    processed, violating the claimed spacing. -/
theorem dynamic_fps_counterexample :
    fps_limit 8 ≠ claimed_fps_policy 20 8 ∧
    processedTimes 0 0 [8, 83 / 10] = [8, 83 / 10] ∧
    ¬ 1 / claimed_fps_policy 20 (83 / 10 - 0) ≤ 83 / 10 - 8 := by
  refine ⟨by norm_num [fps_limit, claimed_fps_policy], ?_,
    by norm_num [claimed_fps_policy]⟩
  norm_num [processedTimes, fps_limit]

/-- C7 amended: two consecutively processed frames are at least
    `1/fps` apart where fps is the code's rate — 2 fps while elapsed
    watch time is at most 7 seconds and 4 fps after that, the 7-second
    cutoff being fixed regardless of the configured watch duration
    `T`; frames arriving earlier are silently dropped (the processed
    timestamps form a subsequence of the input, nothing is queued, and
    the function is total so no error is raised). -/
theorem frame_sampling_spacing (vs last : ℚ) (ts : List ℚ) :
    List.Chain' (fun a b => 1 / fps_limit (b - vs) ≤ b - a)
      (processedTimes vs last ts) ∧
    (processedTimes vs last ts).Sublist ts :=
  ⟨processedTimes_chain vs last ts, processedTimes_sublist vs last ts⟩

end ContentFilter

